import Mathlib

/-!
Shallow embedding of the solarpi Growatt SPF5000 register-mapped protocol
adapter.  The repository contains three revisions of the same adapter class;
the extended-schedule revision (registers 1070..1088 and 1090..1108) is
embedded in the namespace `Growatt`, and the earliest revision (registers
2..6, 37 and 95, byte-packed hours) in the namespace `GrowattV1`.

JavaScript bitwise operators work on 32-bit two's-complement integers; the
helpers `toUint32`, `toInt32`, `jsShl`, `jsShr`, `jsOr`, `jsAnd` model those
semantics exactly, so every `<<`, `>>`, `|`, `&` of the source is translated
through them.
-/

/-- JS ToUint32: the unsigned 32-bit value of an integer. -/
def toUint32 (n : Int) : Nat := (n % 4294967296).toNat

/-- JS ToInt32: the signed 32-bit value of an integer. -/
def toInt32 (n : Int) : Int :=
  if n % 4294967296 < 2147483648 then n % 4294967296 else n % 4294967296 - 4294967296

/-- JS left shift `a << b`: shift the 32-bit value of `a` by `b & 31`,
keep the low 32 bits, read back as signed. -/
def jsShl (a b : Int) : Int :=
  toInt32 (Int.ofNat ((toUint32 a <<< (toUint32 b % 32)) % 4294967296))

/-- JS sign-propagating right shift `a >> b`. -/
def jsShr (a b : Int) : Int :=
  Int.ediv (toInt32 a) (2 ^ (toUint32 b % 32))

/-- JS bitwise or `a | b` on the 32-bit values. -/
def jsOr (a b : Int) : Int :=
  toInt32 (Int.ofNat (Nat.lor (toUint32 a) (toUint32 b)))

/-- JS bitwise and `a & b` on the 32-bit values. -/
def jsAnd (a b : Int) : Int :=
  toInt32 (Int.ofNat (Nat.land (toUint32 a) (toUint32 b)))

/-- A field value held in a control-values object: the TypeScript objects
hold JS numbers (modelled as integers) and strings. -/
inductive Val where
  | num (n : Int)
  | str (s : String)
deriving DecidableEq

/-- Numeric content of a value, as used by the encode step after schema
validation has established that the field holds a number. -/
def Val.toNum : Val → Int
  | .num n => n
  | .str _ => 0

/-- Ajv check for a schema entry of kind `type: number, minimum lo, maximum hi`. -/
def numBetween (v : Val) (lo hi : Int) : Bool :=
  match v with
  | .num n => decide (lo ≤ n) && decide (n ≤ hi)
  | .str _ => false

/-- Character-level check that `pat` is an initial segment of the second
list. -/
def leadMatch : List Char → List Char → Bool
  | [], _ => true
  | _ :: _, [] => false
  | a :: as, b :: bs => (a == b) && leadMatch as bs

/-- Character-level check that `pat` occurs contiguously somewhere in the
second list. -/
def containsSub (pat : List Char) : List Char → Bool
  | [] => leadMatch pat []
  | b :: bs => leadMatch pat (b :: bs) || containsSub pat bs

/-- Ajv check for a schema entry of kind `type: string, pattern: ON|OFF`:
the pattern is an unanchored regular expression, so it holds of any string
containing `ON` or `OFF`. -/
def matchesOnOff (v : Val) : Bool :=
  match v with
  | .str s => containsSub "ON".toList s.toList || containsSub "OFF".toList s.toList
  | .num _ => false

/-- One `writeRegisters(modbusClient, dataAddress, values)` call recorded on
the register-access channel. -/
structure WriteCall where
  address : Nat
  values : List Int
deriving DecidableEq

/-- Write calls a set command issued: none when it threw before writing. -/
def writesOf (r : Except String (List WriteCall)) : List WriteCall :=
  match r with
  | .error _ => []
  | .ok l => l

namespace Growatt

/-- TouChargingValues of the extended-schedule revision. -/
structure TouChargingValues where
  chargePower : Val
  stopSOC : Val
  ac : Val
  startHour1 : Val
  startMinute1 : Val
  stopHour1 : Val
  stopMinute1 : Val
  enablePeriod1 : Val
  startHour2 : Val
  startMinute2 : Val
  stopHour2 : Val
  stopMinute2 : Val
  enablePeriod2 : Val
  startHour3 : Val
  startMinute3 : Val
  stopHour3 : Val
  stopMinute3 : Val
  enablePeriod3 : Val
deriving DecidableEq

/-- TouDischargingValues of the extended-schedule revision. -/
structure TouDischargingValues where
  dischargePower : Val
  dischargeStopSOC : Val
  startHour1 : Val
  startMinute1 : Val
  stopHour1 : Val
  stopMinute1 : Val
  enablePeriod1 : Val
  startHour2 : Val
  startMinute2 : Val
  stopHour2 : Val
  stopMinute2 : Val
  enablePeriod2 : Val
  startHour3 : Val
  startMinute3 : Val
  stopHour3 : Val
  stopMinute3 : Val
  enablePeriod3 : Val
deriving DecidableEq

/-- Hard-coded seed values of `touChargingValues`. -/
def touChargingValues0 : TouChargingValues :=
  { chargePower := .num 100, stopSOC := .num 100, ac := .str "OFF",
    startHour1 := .num 0, startMinute1 := .num 0, stopHour1 := .num 0,
    stopMinute1 := .num 0, enablePeriod1 := .str "OFF",
    startHour2 := .num 0, startMinute2 := .num 0, stopHour2 := .num 0,
    stopMinute2 := .num 0, enablePeriod2 := .str "OFF",
    startHour3 := .num 0, startMinute3 := .num 0, stopHour3 := .num 0,
    stopMinute3 := .num 0, enablePeriod3 := .str "OFF" }

/-- Hard-coded seed values of `touDischargingValues`. -/
def touDischargingValues0 : TouDischargingValues :=
  { dischargePower := .num 100, dischargeStopSOC := .num 5,
    startHour1 := .num 0, startMinute1 := .num 0, stopHour1 := .num 0,
    stopMinute1 := .num 0, enablePeriod1 := .str "OFF",
    startHour2 := .num 0, startMinute2 := .num 0, stopHour2 := .num 0,
    stopMinute2 := .num 0, enablePeriod2 := .str "OFF",
    startHour3 := .num 0, startMinute3 := .num 0, stopHour3 := .num 0,
    stopMinute3 := .num 0, enablePeriod3 := .str "OFF" }

/-- Ajv schema of `setTouCharging` applied to a `TouChargingValues` object
(all declared fields are present by construction, so `required` and
`additionalProperties` hold; the per-property checks remain). -/
def validateTouCharging (s : TouChargingValues) : Bool :=
  numBetween s.chargePower 0 100 && numBetween s.stopSOC 0 100 &&
  matchesOnOff s.ac &&
  numBetween s.startHour1 0 23 && numBetween s.startMinute1 0 59 &&
  numBetween s.stopHour1 0 23 && numBetween s.stopMinute1 0 59 &&
  matchesOnOff s.enablePeriod1 &&
  numBetween s.startHour2 0 23 && numBetween s.startMinute2 0 59 &&
  numBetween s.stopHour2 0 23 && numBetween s.stopMinute2 0 59 &&
  matchesOnOff s.enablePeriod2 &&
  numBetween s.startHour3 0 23 && numBetween s.startMinute3 0 59 &&
  numBetween s.stopHour3 0 23 && numBetween s.stopMinute3 0 59 &&
  matchesOnOff s.enablePeriod3

/-- Ajv schema of `setTouDischarging`. -/
def validateTouDischarging (s : TouDischargingValues) : Bool :=
  numBetween s.dischargePower 0 100 && numBetween s.dischargeStopSOC 0 100 &&
  numBetween s.startHour1 0 23 && numBetween s.startMinute1 0 59 &&
  numBetween s.stopHour1 0 23 && numBetween s.stopMinute1 0 59 &&
  matchesOnOff s.enablePeriod1 &&
  numBetween s.startHour2 0 23 && numBetween s.startMinute2 0 59 &&
  numBetween s.stopHour2 0 23 && numBetween s.stopMinute2 0 59 &&
  matchesOnOff s.enablePeriod2 &&
  numBetween s.startHour3 0 23 && numBetween s.startMinute3 0 59 &&
  numBetween s.stopHour3 0 23 && numBetween s.stopMinute3 0 59 &&
  matchesOnOff s.enablePeriod3

/-- The byte-packed hour/minute word `(hour << 8) | minute` built by the set
commands from two cached fields. -/
def packWord (h m : Val) : Int := jsOr (jsShl h.toNum 8) m.toNum

/-- Hour read back from a packed word: `raw >> 8`. -/
def unpackHour (w : Int) : Int := jsShr w 8

/-- Minute read back from a packed word: `raw & 0xFF`. -/
def unpackMinute (w : Int) : Int := jsAnd w 0xFF

/-- The `setTouCharging` command: validate the cached object, then write
registers 1090-1092 and 1100-1108; a validation failure throws the bare
string before any write. -/
def setTouCharging (s : TouChargingValues) : Except String (List WriteCall) :=
  if validateTouCharging s = true then
    .ok [⟨1090, [s.chargePower.toNum, s.stopSOC.toNum,
                 if s.ac = .str "ON" then 1 else 0]⟩,
         ⟨1100, [packWord s.startHour1 s.startMinute1,
                 packWord s.stopHour1 s.stopMinute1,
                 if s.enablePeriod1 = .str "ON" then 1 else 0,
                 packWord s.startHour2 s.startMinute2,
                 packWord s.stopHour2 s.stopMinute2,
                 if s.enablePeriod2 = .str "ON" then 1 else 0,
                 packWord s.startHour3 s.startMinute3,
                 packWord s.stopHour3 s.stopMinute3,
                 if s.enablePeriod3 = .str "ON" then 1 else 0]⟩]
  else .error "Error validating setTouCharging"

/-- The `setTouDischarging` command: validate the cached object, then write
registers 1070-1071 and 1080-1088. -/
def setTouDischarging (s : TouDischargingValues) : Except String (List WriteCall) :=
  if validateTouDischarging s = true then
    .ok [⟨1070, [s.dischargePower.toNum, s.dischargeStopSOC.toNum]⟩,
         ⟨1080, [packWord s.startHour1 s.startMinute1,
                 packWord s.stopHour1 s.stopMinute1,
                 if s.enablePeriod1 = .str "ON" then 1 else 0,
                 packWord s.startHour2 s.startMinute2,
                 packWord s.stopHour2 s.stopMinute2,
                 if s.enablePeriod2 = .str "ON" then 1 else 0,
                 packWord s.startHour3 s.startMinute3,
                 packWord s.stopHour3 s.stopMinute3,
                 if s.enablePeriod3 = .str "ON" then 1 else 0]⟩]
  else .error "Error validating setTouDischarging"

/-- Abstract register-access channel: the holding-register space of the
device, one 16-bit word per address. -/
structure Device where
  holding : Nat → Nat

/-- A `readHoldingRegisters(modbusClient, dataAddress, length)` call. -/
def readHoldingRegisters (dev : Device) (dataAddress length : Nat) : List Int :=
  (List.range length).map (fun i => (dev.holding (dataAddress + i) : Int))

/-- Decoding step of `getTouCharging`: registers 1090-1092 in `data1`,
registers 1100-1108 in `data2`. -/
def decodeTouCharging (data1 data2 : List Int) : TouChargingValues :=
  { chargePower := .num (data1.getD 0 0),
    stopSOC := .num (data1.getD 1 0),
    ac := if data1.getD 2 0 = 1 then .str "ON" else .str "OFF",
    startHour1 := .num (unpackHour (data2.getD 0 0)),
    startMinute1 := .num (unpackMinute (data2.getD 0 0)),
    stopHour1 := .num (unpackHour (data2.getD 1 0)),
    stopMinute1 := .num (unpackMinute (data2.getD 1 0)),
    enablePeriod1 := if data2.getD 2 0 = 1 then .str "ON" else .str "OFF",
    startHour2 := .num (unpackHour (data2.getD 3 0)),
    startMinute2 := .num (unpackMinute (data2.getD 3 0)),
    stopHour2 := .num (unpackHour (data2.getD 4 0)),
    stopMinute2 := .num (unpackMinute (data2.getD 4 0)),
    enablePeriod2 := if data2.getD 5 0 = 1 then .str "ON" else .str "OFF",
    startHour3 := .num (unpackHour (data2.getD 6 0)),
    startMinute3 := .num (unpackMinute (data2.getD 6 0)),
    stopHour3 := .num (unpackHour (data2.getD 7 0)),
    stopMinute3 := .num (unpackMinute (data2.getD 7 0)),
    enablePeriod3 := if data2.getD 8 0 = 1 then .str "ON" else .str "OFF" }

/-- Decoding step of `getTouDischarging`: registers 1070-1071 in `data1`,
registers 1080-1088 in `data2`. -/
def decodeTouDischarging (data1 data2 : List Int) : TouDischargingValues :=
  { dischargePower := .num (data1.getD 0 0),
    dischargeStopSOC := .num (data1.getD 1 0),
    startHour1 := .num (unpackHour (data2.getD 0 0)),
    startMinute1 := .num (unpackMinute (data2.getD 0 0)),
    stopHour1 := .num (unpackHour (data2.getD 1 0)),
    stopMinute1 := .num (unpackMinute (data2.getD 1 0)),
    enablePeriod1 := if data2.getD 2 0 = 1 then .str "ON" else .str "OFF",
    startHour2 := .num (unpackHour (data2.getD 3 0)),
    startMinute2 := .num (unpackMinute (data2.getD 3 0)),
    stopHour2 := .num (unpackHour (data2.getD 4 0)),
    stopMinute2 := .num (unpackMinute (data2.getD 4 0)),
    enablePeriod2 := if data2.getD 5 0 = 1 then .str "ON" else .str "OFF",
    startHour3 := .num (unpackHour (data2.getD 6 0)),
    startMinute3 := .num (unpackMinute (data2.getD 6 0)),
    stopHour3 := .num (unpackHour (data2.getD 7 0)),
    stopMinute3 := .num (unpackMinute (data2.getD 7 0)),
    enablePeriod3 := if data2.getD 8 0 = 1 then .str "ON" else .str "OFF" }

/-- The `getTouCharging` command: read registers 1090-1092 and 1100-1108 and
decode them. -/
def getTouCharging (dev : Device) : TouChargingValues :=
  decodeTouCharging (readHoldingRegisters dev 1090 3) (readHoldingRegisters dev 1100 9)

/-- The `getTouDischarging` command: read registers 1070-1071 and 1080-1088
and decode them. -/
def getTouDischarging (dev : Device) : TouDischargingValues :=
  decodeTouDischarging (readHoldingRegisters dev 1070 2) (readHoldingRegisters dev 1080 9)

/-- Clock values returned by `getTime`. -/
structure TimeValues where
  year : Int
  month : Int
  day : Int
  hour : Int
  minute : Int
  second : Int
deriving DecidableEq

/-- The `getTime` command: read holding registers 45-50. -/
def getTime (dev : Device) : TimeValues :=
  let data := readHoldingRegisters dev 45 6
  { year := data.getD 0 0, month := data.getD 1 0, day := data.getD 2 0,
    hour := data.getD 3 0, minute := data.getD 4 0, second := data.getD 5 0 }

/-- In-memory control state of the adapter instance: the two class-scoped
cached values objects. -/
structure Store where
  touChargingValues : TouChargingValues
  touDischargingValues : TouDischargingValues
deriving DecidableEq

/-- Values payload of a `ControlData` reply. -/
inductive DomainValues where
  | charging (v : TouChargingValues)
  | discharging (v : TouDischargingValues)
  | time (t : TimeValues)
deriving DecidableEq

/-- One element of the `ControlData[]` reply. -/
structure ControlData where
  subTopic : String
  values : DomainValues
deriving DecidableEq

/-- Dynamic key read on the cached charging object, mirroring
`typeof this.touChargingValues[key] !== 'undefined'` plus the read. -/
def getChargingKey (s : TouChargingValues) (k : String) : Option Val :=
  if k = "chargePower" then some s.chargePower
  else if k = "stopSOC" then some s.stopSOC
  else if k = "ac" then some s.ac
  else if k = "startHour1" then some s.startHour1
  else if k = "startMinute1" then some s.startMinute1
  else if k = "stopHour1" then some s.stopHour1
  else if k = "stopMinute1" then some s.stopMinute1
  else if k = "enablePeriod1" then some s.enablePeriod1
  else if k = "startHour2" then some s.startHour2
  else if k = "startMinute2" then some s.startMinute2
  else if k = "stopHour2" then some s.stopHour2
  else if k = "stopMinute2" then some s.stopMinute2
  else if k = "enablePeriod2" then some s.enablePeriod2
  else if k = "startHour3" then some s.startHour3
  else if k = "startMinute3" then some s.startMinute3
  else if k = "stopHour3" then some s.stopHour3
  else if k = "stopMinute3" then some s.stopMinute3
  else if k = "enablePeriod3" then some s.enablePeriod3
  else none

/-- Dynamic key assignment `this.touChargingValues[key] = control[key]`,
guarded by the key being a declared field; other keys leave the object
unchanged. -/
def applyChargingKey (s : TouChargingValues) (k : String) (v : Val) : TouChargingValues :=
  if k = "chargePower" then { s with chargePower := v }
  else if k = "stopSOC" then { s with stopSOC := v }
  else if k = "ac" then { s with ac := v }
  else if k = "startHour1" then { s with startHour1 := v }
  else if k = "startMinute1" then { s with startMinute1 := v }
  else if k = "stopHour1" then { s with stopHour1 := v }
  else if k = "stopMinute1" then { s with stopMinute1 := v }
  else if k = "enablePeriod1" then { s with enablePeriod1 := v }
  else if k = "startHour2" then { s with startHour2 := v }
  else if k = "startMinute2" then { s with startMinute2 := v }
  else if k = "stopHour2" then { s with stopHour2 := v }
  else if k = "stopMinute2" then { s with stopMinute2 := v }
  else if k = "enablePeriod2" then { s with enablePeriod2 := v }
  else if k = "startHour3" then { s with startHour3 := v }
  else if k = "startMinute3" then { s with startMinute3 := v }
  else if k = "stopHour3" then { s with stopHour3 := v }
  else if k = "stopMinute3" then { s with stopMinute3 := v }
  else if k = "enablePeriod3" then { s with enablePeriod3 := v }
  else s

/-- Dynamic key read on the cached discharging object. -/
def getDischargingKey (s : TouDischargingValues) (k : String) : Option Val :=
  if k = "dischargePower" then some s.dischargePower
  else if k = "dischargeStopSOC" then some s.dischargeStopSOC
  else if k = "startHour1" then some s.startHour1
  else if k = "startMinute1" then some s.startMinute1
  else if k = "stopHour1" then some s.stopHour1
  else if k = "stopMinute1" then some s.stopMinute1
  else if k = "enablePeriod1" then some s.enablePeriod1
  else if k = "startHour2" then some s.startHour2
  else if k = "startMinute2" then some s.startMinute2
  else if k = "stopHour2" then some s.stopHour2
  else if k = "stopMinute2" then some s.stopMinute2
  else if k = "enablePeriod2" then some s.enablePeriod2
  else if k = "startHour3" then some s.startHour3
  else if k = "startMinute3" then some s.startMinute3
  else if k = "stopHour3" then some s.stopHour3
  else if k = "stopMinute3" then some s.stopMinute3
  else if k = "enablePeriod3" then some s.enablePeriod3
  else none

/-- Dynamic key assignment `this.touDischargingValues[key] = control[key]`. -/
def applyDischargingKey (s : TouDischargingValues) (k : String) (v : Val) : TouDischargingValues :=
  if k = "dischargePower" then { s with dischargePower := v }
  else if k = "dischargeStopSOC" then { s with dischargeStopSOC := v }
  else if k = "startHour1" then { s with startHour1 := v }
  else if k = "startMinute1" then { s with startMinute1 := v }
  else if k = "stopHour1" then { s with stopHour1 := v }
  else if k = "stopMinute1" then { s with stopMinute1 := v }
  else if k = "enablePeriod1" then { s with enablePeriod1 := v }
  else if k = "startHour2" then { s with startHour2 := v }
  else if k = "startMinute2" then { s with startMinute2 := v }
  else if k = "stopHour2" then { s with stopHour2 := v }
  else if k = "stopMinute2" then { s with stopMinute2 := v }
  else if k = "enablePeriod2" then { s with enablePeriod2 := v }
  else if k = "startHour3" then { s with startHour3 := v }
  else if k = "startMinute3" then { s with startMinute3 := v }
  else if k = "stopHour3" then { s with stopHour3 := v }
  else if k = "stopMinute3" then { s with stopMinute3 := v }
  else if k = "enablePeriod3" then { s with enablePeriod3 := v }
  else s

/-- The `ControlData[]` array `updateControl` always returns: the full cached
values of both domains. -/
def controlReply (st : Store) : List ControlData :=
  [⟨"touCharging", .charging st.touChargingValues⟩,
   ⟨"touDischarging", .discharging st.touDischargingValues⟩]

/-- The `updateControl(subTopic, controlMessage)` method.  `JSON.parse` of
the message is external; its outcome is the `Option`: `some kvs` is the
parsed field-value mapping, `none` is the thrown parse error, which the
method catches and logs, leaving the store untouched.  In both cases the
full control values of both domains are returned to the caller with no
error indication. -/
def updateControl (st : Store) (subTopic : String)
    (controlMessage : Option (List (String × Val))) : Store × List ControlData :=
  let st1 :=
    match controlMessage with
    | none => st
    | some kvs =>
        kvs.foldl (fun acc kv =>
          if subTopic = "touCharging" then
            { acc with touChargingValues := applyChargingKey acc.touChargingValues kv.1 kv.2 }
          else if subTopic = "touDischarging" then
            { acc with touDischargingValues := applyDischargingKey acc.touDischargingValues kv.1 kv.2 }
          else acc) st
  (st1, controlReply st1)

/-- The `sendCommand` dispatcher, given the already-parsed `command.command`
string of the envelope.  The result is the command reply (`none` for the
void-returning set commands) or the thrown value; the returned store is the
updated cache. -/
def sendCommand (st : Store) (dev : Device) (command : String) :
    Except String (Option ControlData) × Store :=
  if command = "setTouCharging" then
    match setTouCharging st.touChargingValues with
    | .ok _ => (.ok none, st)
    | .error e => (.error e, st)
  else if command = "getTouCharging" then
    let v := getTouCharging dev
    (.ok (some ⟨"touCharging", .charging v⟩), { st with touChargingValues := v })
  else if command = "setTouDischarging" then
    match setTouDischarging st.touDischargingValues with
    | .ok _ => (.ok none, st)
    | .error e => (.error e, st)
  else if command = "getTouDischarging" then
    let v := getTouDischarging dev
    (.ok (some ⟨"touDischarging", .discharging v⟩), { st with touDischargingValues := v })
  else if command = "getTime" then
    (.ok (some ⟨"time", .time (getTime dev)⟩), st)
  else
    (.error (String.append "Unknown command: " command), st)

/-- Inverter status lookup table of `parseInputRegisters`. -/
def statusMap (w : Int) : Option String :=
  if w = 0 then some "Standby"
  else if w = 1 then some "PV an Grid Combine Discharge"
  else if w = 2 then some "Discharge"
  else if w = 3 then some "Fault"
  else if w = 4 then some "Flash"
  else if w = 5 then some "PV charge"
  else if w = 6 then some "AC charge"
  else if w = 7 then some "Combine charge"
  else if w = 8 then some "Combine charge and Bypass"
  else if w = 9 then some "PV charge and Bypass"
  else if w = 10 then some "AC charge and Bypass"
  else if w = 11 then some "Bypass"
  else if w = 12 then some "PV charge and Discharge"
  else none

/-- Inverter error lookup table of `parseInputRegisters`. -/
def errorMap (w : Int) : Option String :=
  if w = 2 then some "Over Temperature"
  else if w = 3 then some "Bat Voltage High"
  else if w = 5 then some "Output short"
  else if w = 6 then some "Output voltage high"
  else if w = 7 then some "Over Load"
  else if w = 8 then some "Bus voltage high"
  else if w = 9 then some "Bus start fail"
  else if w = 51 then some "over current"
  else if w = 52 then some "Bus voltage low"
  else if w = 53 then some "inverter softstart fail"
  else if w = 56 then some "battery open"
  else if w = 58 then some "output voltage low"
  else if w = 60 then some "negtive power"
  else if w = 61 then some "PV voltage high"
  else if w = 62 then some "SCI com error"
  else if w = 80 then some "can fault"
  else if w = 81 then some "host loss"
  else none

/-- Enum decode `table[raw] || raw`: the table entry when the code is known,
otherwise the raw numeric code. -/
def enumOrRaw (table : Int → Option String) (w : Int) : Val :=
  match table w with
  | some s => .str s
  | none => .num w

/-- Two-word big-endian combine under the ÷10 scale:
`(high_word << 16 | low_word) / 10.0`, high word at the lower address. -/
def word32Div10 (hi lo : Int) : ℚ := ((jsOr (jsShl hi 16) lo : Int) : ℚ) / 10

/-- Sensor snapshot produced by `parseInputRegisters`. -/
structure ParsedInput where
  inverterStatus : Val
  ppv : ℚ
  vpv1 : ℚ
  ppv1 : ℚ
  vpv2 : ℚ
  ppv2 : ℚ
  vgrid : ℚ
  epvToday : ℚ
  epvTotal : ℚ
  inverterTemperature : ℚ
  inverterError : Val
  pDischarge : ℚ
  pCharge : ℚ
  soc : ℚ
  pImport : ℚ
  pExport : ℚ
  pLoad : ℚ
  eImportToday : ℚ
  eImportTotal : ℚ
  eExportToday : ℚ
  eExportTotal : ℚ
  eDischargeToday : ℚ
  eDischargeTotal : ℚ
  eChargeToday : ℚ
  eChargeTotal : ℚ
  eLoadToday : ℚ
  eLoadTotal : ℚ
deriving DecidableEq

/-- The `parseInputRegisters` decoder over the 90-word input-register window
read at address 0. -/
def parseInputRegisters (data : List Int) : ParsedInput :=
  { inverterStatus := enumOrRaw statusMap (data.getD 0 0),
    ppv := word32Div10 (data.getD 3 0) (data.getD 4 0),
    vpv1 := (data.getD 1 0 : ℚ) / 10,
    ppv1 := word32Div10 (data.getD 3 0) (data.getD 4 0),
    vpv2 := (data.getD 2 0 : ℚ) / 10,
    ppv2 := word32Div10 (data.getD 5 0) (data.getD 6 0),
    vgrid := (data.getD 20 0 : ℚ) / 10,
    epvToday := ((jsOr (jsShl (data.getD 48 0) 16) (data.getD 49 0)
                  + jsOr (jsShl (data.getD 52 0) 16) (data.getD 53 0) : Int) : ℚ) / 10,
    epvTotal := ((jsOr (jsShl (data.getD 50 0) 16) (data.getD 51 0)
                  + jsOr (jsShl (data.getD 54 0) 16) (data.getD 55 0) : Int) : ℚ) / 10,
    inverterTemperature := (data.getD 25 0 : ℚ) / 10,
    inverterError := enumOrRaw errorMap (data.getD 40 0),
    pDischarge := word32Div10 (data.getD 73 0) (data.getD 74 0),
    pCharge := word32Div10 (data.getD 77 0) (data.getD 78 0),
    soc := (data.getD 18 0 : ℚ),
    pImport := word32Div10 (data.getD 36 0) (data.getD 37 0),
    pExport := word32Div10 (data.getD 69 0) (data.getD 70 0),
    pLoad := word32Div10 (data.getD 69 0) (data.getD 70 0),
    eImportToday := word32Div10 (data.getD 48 0) (data.getD 49 0),
    eImportTotal := word32Div10 (data.getD 50 0) (data.getD 51 0),
    eExportToday := word32Div10 (data.getD 85 0) (data.getD 86 0),
    eExportTotal := word32Div10 (data.getD 87 0) (data.getD 88 0),
    eDischargeToday := word32Div10 (data.getD 60 0) (data.getD 61 0),
    eDischargeTotal := word32Div10 (data.getD 62 0) (data.getD 63 0),
    eChargeToday := word32Div10 (data.getD 60 0) (data.getD 61 0),
    eChargeTotal := word32Div10 (data.getD 62 0) (data.getD 63 0),
    eLoadToday := word32Div10 (data.getD 64 0) (data.getD 65 0),
    eLoadTotal := word32Div10 (data.getD 66 0) (data.getD 67 0) }

end Growatt

namespace GrowattV1

/-- Cached charging values of the earliest revision. -/
structure TouChargingValues where
  uwAC2BatVolt : Val
  chargeConfig : Val
  utiChargeStart : Val
  utiChargeEnd : Val
deriving DecidableEq

/-- Cached discharging values of the earliest revision. -/
structure TouDischargingValues where
  batLowToUtiVolt : Val
  utiOutStart : Val
  utiOutEnd : Val
deriving DecidableEq

/-- Hard-coded seed values of `touChargingValues` in the earliest revision. -/
def touChargingValues0 : TouChargingValues :=
  { uwAC2BatVolt := .num 50, chargeConfig := .num 0,
    utiChargeStart := .num 0, utiChargeEnd := .num 0 }

/-- Hard-coded seed values of `touDischargingValues` in the earliest
revision. -/
def touDischargingValues0 : TouDischargingValues :=
  { batLowToUtiVolt := .num 30, utiOutStart := .num 0, utiOutEnd := .num 0 }

/-- Ajv schema of the earliest revision's `setTouCharging`. -/
def validateTouCharging (s : TouChargingValues) : Bool :=
  numBetween s.uwAC2BatVolt 0 100 && numBetween s.chargeConfig 0 2 &&
  numBetween s.utiChargeStart 0 23 && numBetween s.utiChargeEnd 0 23

/-- Ajv schema of the earliest revision's `setTouDischarging`. -/
def validateTouDischarging (s : TouDischargingValues) : Bool :=
  numBetween s.batLowToUtiVolt 20 90 &&
  numBetween s.utiOutStart 0 23 && numBetween s.utiOutEnd 0 23

/-- The earliest revision's `setTouCharging`: validate, then write register
95, then register 2, then registers 5-6 (hour packed into the high byte). -/
def setTouCharging (s : TouChargingValues) : Except String (List WriteCall) :=
  if validateTouCharging s = true then
    .ok [⟨95, [s.uwAC2BatVolt.toNum]⟩,
         ⟨2, [s.chargeConfig.toNum]⟩,
         ⟨5, [jsShl s.utiChargeStart.toNum 8, jsShl s.utiChargeEnd.toNum 8]⟩]
  else .error "Error validating setTouCharging"

/-- The earliest revision's `setTouDischarging`: validate, then write
register 37, then registers 3-4. -/
def setTouDischarging (s : TouDischargingValues) : Except String (List WriteCall) :=
  if validateTouDischarging s = true then
    .ok [⟨37, [s.batLowToUtiVolt.toNum]⟩,
         ⟨3, [jsShl s.utiOutStart.toNum 8, jsShl s.utiOutEnd.toNum 8]⟩]
  else .error "Error validating setTouDischarging"

end GrowattV1

/-! Theorems about the claims. -/

/-- Packing then unpacking an hour/minute pair, checked over the whole
in-range domain. -/
theorem pack_unpack_aux : ∀ h : ℕ, h < 24 → ∀ m : ℕ, m < 60 →
    Growatt.packWord (.num (h : Int)) (.num (m : Int)) = ((h * 256 + m : Nat) : Int) ∧
    Growatt.unpackHour ((h * 256 + m : Nat) : Int) = (h : Int) ∧
    Growatt.unpackMinute ((h * 256 + m : Nat) : Int) = (m : Int) := by
  decide

/-- C1: encoding the pair hour 6, minute 30 yields the packed word 0x061E;
decoding 0x061E yields hour 6 and minute 30; and for every hour in [0,23]
and minute in [0,59] the decode of the encode returns the same pair. -/
theorem claim_C1_byte_packed_pair :
    Growatt.packWord (.num 6) (.num 30) = 0x061E ∧
    Growatt.unpackHour 0x061E = 6 ∧ Growatt.unpackMinute 0x061E = 30 ∧
    ∀ h m : Int, 0 ≤ h → h ≤ 23 → 0 ≤ m → m ≤ 59 →
      Growatt.unpackHour (Growatt.packWord (.num h) (.num m)) = h ∧
      Growatt.unpackMinute (Growatt.packWord (.num h) (.num m)) = m := by
  refine ⟨by decide, by decide, by decide, ?_⟩
  intro h m h0 h1 m0 m1
  lift h to ℕ using h0 with hn
  lift m to ℕ using m0 with mn
  have hh : hn < 24 := by omega
  have hm : mn < 60 := by omega
  obtain ⟨e1, e2, e3⟩ := pack_unpack_aux hn hh mn hm
  rw [e1]
  exact ⟨e2, e3⟩

/-- C1 witness: the round trip at hour 21, minute 45. -/
theorem claim_C1_byte_packed_pair_witness :
    Growatt.unpackHour (Growatt.packWord (.num 21) (.num 45)) = 21 ∧
    Growatt.unpackMinute (Growatt.packWord (.num 21) (.num 45)) = 45 :=
  claim_C1_byte_packed_pair.2.2.2 21 45 (by decide) (by decide) (by decide) (by decide)

/-- Input window with word 0x0001 at address 3 and 0x0000 at address 4. -/
def dataHiLo : List Int := (List.replicate 90 0).set 3 1

/-- Input window with the two words of `dataHiLo` swapped. -/
def dataLoHi : List Int := (List.replicate 90 0).set 4 1

/-- C2: under the ÷10 two-word combine rule the word at the lower address is
the high word: the window [0x0001, 0x0000] decodes to 6553.6 and the swapped
window [0x0000, 0x0001] decodes to 0.1, a different value, both as the bare
rule and through `parseInputRegisters` at the two-word field `ppv`. -/
theorem claim_C2_combine_order_sensitive :
    Growatt.word32Div10 1 0 = 6553.6 ∧ Growatt.word32Div10 0 1 = 0.1 ∧
    (6553.6 : ℚ) ≠ 0.1 ∧
    (Growatt.parseInputRegisters dataHiLo).ppv = 6553.6 ∧
    (Growatt.parseInputRegisters dataLoHi).ppv = 0.1 := by
  have e1 : jsOr (jsShl 1 16) 0 = 65536 := by decide
  have e2 : jsOr (jsShl 0 16) 1 = 1 := by decide
  have w1 : Growatt.word32Div10 1 0 = 6553.6 := by
    show ((jsOr (jsShl 1 16) 0 : Int) : ℚ) / 10 = 6553.6
    rw [e1]; norm_num
  have w2 : Growatt.word32Div10 0 1 = 0.1 := by
    show ((jsOr (jsShl 0 16) 1 : Int) : ℚ) / 10 = 0.1
    rw [e2]; norm_num
  have p1 : (Growatt.parseInputRegisters dataHiLo).ppv = Growatt.word32Div10 1 0 := rfl
  have p2 : (Growatt.parseInputRegisters dataLoHi).ppv = Growatt.word32Div10 0 1 := rfl
  exact ⟨w1, w2, by norm_num, by rw [p1, w1], by rw [p2, w2]⟩

/-- Seed store of one adapter instance. -/
def store0 : Growatt.Store := ⟨Growatt.touChargingValues0, Growatt.touDischargingValues0⟩

/-- A device whose holding registers all read zero. -/
def dev0 : Growatt.Device := ⟨fun _ => 0⟩

/-- The touDischarging cache after merging the partial update
`dischargeStopSOC = 5` into a store. -/
def mergedDischarging (st : Growatt.Store) : Growatt.TouDischargingValues :=
  (Growatt.updateControl st "touDischarging" (some [("dischargeStopSOC", Val.num 5)])).1.touDischargingValues

/-- C3: after merging the partial update `dischargeStopSOC = 5` into the
touDischarging domain, a validating flush writes words derived from the full
post-merge cached state: every word except the merged slot still carries the
previously cached value of its untouched fields. -/
theorem claim_C3_flush_uses_full_merged_state (st : Growatt.Store)
    (hv : Growatt.validateTouDischarging (mergedDischarging st) = true) :
    Growatt.setTouDischarging (mergedDischarging st) = .ok
      [⟨1070, [(st.touDischargingValues.dischargePower).toNum, 5]⟩,
       ⟨1080, [Growatt.packWord st.touDischargingValues.startHour1 st.touDischargingValues.startMinute1,
               Growatt.packWord st.touDischargingValues.stopHour1 st.touDischargingValues.stopMinute1,
               if st.touDischargingValues.enablePeriod1 = .str "ON" then 1 else 0,
               Growatt.packWord st.touDischargingValues.startHour2 st.touDischargingValues.startMinute2,
               Growatt.packWord st.touDischargingValues.stopHour2 st.touDischargingValues.stopMinute2,
               if st.touDischargingValues.enablePeriod2 = .str "ON" then 1 else 0,
               Growatt.packWord st.touDischargingValues.startHour3 st.touDischargingValues.startMinute3,
               Growatt.packWord st.touDischargingValues.stopHour3 st.touDischargingValues.stopMinute3,
               if st.touDischargingValues.enablePeriod3 = .str "ON" then 1 else 0]⟩] := by
  have hm : mergedDischarging st
      = { st.touDischargingValues with dischargeStopSOC := Val.num 5 } := rfl
  rw [hm] at hv ⊢
  simp [Growatt.setTouDischarging, hv, Val.toNum]

/-- A store whose discharging cache carries distinctive untouched values. -/
def storeW : Growatt.Store :=
  ⟨Growatt.touChargingValues0,
   { Growatt.touDischargingValues0 with
       startHour1 := Val.num 7, startMinute1 := Val.num 45, dischargeStopSOC := Val.num 50 }⟩

/-- C3 witness: merging `dischargeStopSOC = 5` into `storeW` flushes the
untouched packed word 0x072D (hour 7, minute 45) together with the merged 5. -/
theorem claim_C3_flush_uses_full_merged_state_witness :
    Growatt.setTouDischarging (mergedDischarging storeW) =
      .ok [⟨1070, [100, 5]⟩, ⟨1080, [1837, 0, 0, 0, 0, 0, 0, 0, 0]⟩] := by
  have h := claim_C3_flush_uses_full_merged_state storeW (by decide)
  rw [h]
  rfl

/-- C4: a cached domain state whose percentage field holds 150 fails the
schema validation of its set command and the command records no write call
on the register-access channel. -/
theorem claim_C4_out_of_range_percentage_no_write (c : Growatt.TouChargingValues)
    (d : Growatt.TouDischargingValues) :
    ((c.chargePower = Val.num 150 ∨ c.stopSOC = Val.num 150) →
      Growatt.validateTouCharging c = false ∧ writesOf (Growatt.setTouCharging c) = []) ∧
    ((d.dischargePower = Val.num 150 ∨ d.dischargeStopSOC = Val.num 150) →
      Growatt.validateTouDischarging d = false ∧ writesOf (Growatt.setTouDischarging d) = []) := by
  constructor
  · rintro (h | h) <;>
    · have hv : Growatt.validateTouCharging c = false := by
        simp [Growatt.validateTouCharging, numBetween, h]
      exact ⟨hv, by simp [Growatt.setTouCharging, hv, writesOf]⟩
  · rintro (h | h) <;>
    · have hv : Growatt.validateTouDischarging d = false := by
        simp [Growatt.validateTouDischarging, numBetween, h]
      exact ⟨hv, by simp [Growatt.setTouDischarging, hv, writesOf]⟩

/-- C4 witness: a charging cache with chargePower 150 fails validation and
records no write. -/
theorem claim_C4_out_of_range_percentage_no_write_witness :
    Growatt.validateTouCharging { Growatt.touChargingValues0 with chargePower := Val.num 150 } = false ∧
    writesOf (Growatt.setTouCharging { Growatt.touChargingValues0 with chargePower := Val.num 150 }) = [] :=
  (claim_C4_out_of_range_percentage_no_write
    { Growatt.touChargingValues0 with chargePower := Val.num 150 }
    Growatt.touDischargingValues0).1 (Or.inl rfl)

/-- A charging cache violating the schema in one field. -/
def chargingOneViolation : Growatt.TouChargingValues :=
  { Growatt.touChargingValues0 with chargePower := Val.num 150 }

/-- A charging cache violating the schema in two fields. -/
def chargingTwoViolations : Growatt.TouChargingValues :=
  { Growatt.touChargingValues0 with chargePower := Val.num 150, stopSOC := Val.num 150 }

/-- C5 counterexample: a failed validation surfaces the bare string thrown
by the set command, and a state violating one field produces exactly the
same failure as a state violating two fields, so the surfaced failure is
not a typed result listing every violated field. -/
theorem claim_C5_counterexample_bare_string :
    Growatt.setTouCharging chargingOneViolation = .error "Error validating setTouCharging" ∧
    Growatt.setTouCharging chargingTwoViolations = .error "Error validating setTouCharging" ∧
    Growatt.setTouCharging chargingOneViolation = Growatt.setTouCharging chargingTwoViolations :=
  ⟨rfl, rfl, rfl⟩

/-- C5 amended: every validation failure surfaces the same bare string (one
fixed message per domain), carrying no list of violated fields. -/
theorem claim_C5_amended_bare_string (c : Growatt.TouChargingValues)
    (d : Growatt.TouDischargingValues) :
    (Growatt.validateTouCharging c = false →
      Growatt.setTouCharging c = .error "Error validating setTouCharging") ∧
    (Growatt.validateTouDischarging d = false →
      Growatt.setTouDischarging d = .error "Error validating setTouDischarging") := by
  constructor <;> intro h <;>
    simp [Growatt.setTouCharging, Growatt.setTouDischarging, h]

/-- C5 amended witness: an out-of-range discharging cache surfaces the bare
string. -/
theorem claim_C5_amended_bare_string_witness :
    Growatt.setTouDischarging { Growatt.touDischargingValues0 with dischargeStopSOC := Val.num 150 }
      = .error "Error validating setTouDischarging" :=
  (claim_C5_amended_bare_string Growatt.touChargingValues0
    { Growatt.touDischargingValues0 with dischargeStopSOC := Val.num 150 }).2 (by decide)

/-- C6 counterexample: a malformed control message (the parse throws) leaves
the store unchanged, but the caller receives exactly the reply of a benign
empty merge: no MalformedControlMessage condition reaches the caller. -/
theorem claim_C6_counterexample_no_condition_surfaced :
    Growatt.updateControl store0 "touCharging" none
      = Growatt.updateControl store0 "touCharging" (some []) ∧
    (Growatt.updateControl store0 "touCharging" none).1 = store0 :=
  ⟨rfl, rfl⟩

/-- C6 amended: on a malformed control message `updateControl` leaves every
domain's cached state unchanged and returns the normal full control-values
reply, indistinguishable from a successful empty merge; the parse error is
only logged, not surfaced to the caller. -/
theorem claim_C6_amended_store_unchanged (st : Growatt.Store) (subTopic : String) :
    (Growatt.updateControl st subTopic none).1 = st ∧
    Growatt.updateControl st subTopic none = Growatt.updateControl st subTopic (some []) :=
  ⟨rfl, rfl⟩

/-- C7: dispatching an unrecognized command name yields a thrown failure
naming the offending string and leaves the cached state of both control
domains unchanged. -/
theorem claim_C7_unknown_command (st : Growatt.Store) (dev : Growatt.Device) (c : String)
    (h1 : c ≠ "setTouCharging") (h2 : c ≠ "getTouCharging")
    (h3 : c ≠ "setTouDischarging") (h4 : c ≠ "getTouDischarging") (h5 : c ≠ "getTime") :
    Growatt.sendCommand st dev c = (.error (String.append "Unknown command: " c), st) := by
  simp [Growatt.sendCommand, h1, h2, h3, h4, h5]

/-- C7 witness: dispatching "unknownThing" on the seed store. -/
theorem claim_C7_unknown_command_witness :
    Growatt.sendCommand store0 dev0 "unknownThing"
      = (.error "Unknown command: unknownThing", store0) := by
  have h := claim_C7_unknown_command store0 dev0 "unknownThing"
    (by decide) (by decide) (by decide) (by decide) (by decide)
  have e : String.append "Unknown command: " "unknownThing" = "Unknown command: unknownThing" := rfl
  rw [h, e]

/-- Boolean check that a list of addresses is strictly increasing. -/
def ascending : List Nat → Bool
  | [] => true
  | [_] => true
  | a :: b :: t => decide (a < b) && ascending (b :: t)

/-- C8 counterexample: in the earliest revision, `setTouCharging` on the
seed cache issues its writes at addresses 95, 2, 5 — not in ascending
order. -/
theorem claim_C8_counterexample_descending_addresses :
    (writesOf (GrowattV1.setTouCharging GrowattV1.touChargingValues0)).map WriteCall.address
      = [95, 2, 5] ∧
    ascending [95, 2, 5] = false :=
  ⟨rfl, rfl⟩

/-- C8 amended: in the extended-schedule revision every successful set
command issues its write calls at strictly increasing addresses; the
earliest revision violates the claim (see the counterexample). -/
theorem claim_C8_amended_extended_layout_ascending
    (c : Growatt.TouChargingValues) (d : Growatt.TouDischargingValues)
    (lc ld : List WriteCall)
    (hc : Growatt.setTouCharging c = .ok lc) (hd : Growatt.setTouDischarging d = .ok ld) :
    ascending (lc.map WriteCall.address) = true ∧ ascending (ld.map WriteCall.address) = true := by
  constructor
  · unfold Growatt.setTouCharging at hc
    split at hc
    · cases hc
      rfl
    · cases hc
  · unfold Growatt.setTouDischarging at hd
    split at hd
    · cases hd
      rfl
    · cases hd

/-- C8 amended witness: the seed caches of the extended-schedule revision
flush at ascending addresses 1090, 1100 and 1070, 1080. -/
theorem claim_C8_amended_extended_layout_ascending_witness :
    ascending (([⟨1090, [100, 100, 0]⟩, ⟨1100, [0, 0, 0, 0, 0, 0, 0, 0, 0]⟩] : List WriteCall).map WriteCall.address) = true ∧
    ascending (([⟨1070, [100, 5]⟩, ⟨1080, [0, 0, 0, 0, 0, 0, 0, 0, 0]⟩] : List WriteCall).map WriteCall.address) = true :=
  claim_C8_amended_extended_layout_ascending
    Growatt.touChargingValues0 Growatt.touDischargingValues0 _ _ rfl rfl

/-- C10: the merge applies no range or type checking: for every recognized
key the supplied value is stored unchanged in the cached domain state and
returned, and an out-of-range value (hour 99) is rejected only later, by
the schema validation at the start of the set command. -/
theorem claim_C10_merge_unchecked (st : Growatt.Store) (v : Val) :
    ((Growatt.updateControl st "touCharging" (some [("chargePower", v)])).1.touChargingValues.chargePower = v ∧
     (Growatt.updateControl st "touCharging" (some [("stopSOC", v)])).1.touChargingValues.stopSOC = v ∧
     (Growatt.updateControl st "touCharging" (some [("ac", v)])).1.touChargingValues.ac = v ∧
     (Growatt.updateControl st "touCharging" (some [("startHour1", v)])).1.touChargingValues.startHour1 = v ∧
     (Growatt.updateControl st "touCharging" (some [("startMinute1", v)])).1.touChargingValues.startMinute1 = v ∧
     (Growatt.updateControl st "touCharging" (some [("stopHour1", v)])).1.touChargingValues.stopHour1 = v ∧
     (Growatt.updateControl st "touCharging" (some [("stopMinute1", v)])).1.touChargingValues.stopMinute1 = v ∧
     (Growatt.updateControl st "touCharging" (some [("enablePeriod1", v)])).1.touChargingValues.enablePeriod1 = v ∧
     (Growatt.updateControl st "touCharging" (some [("startHour2", v)])).1.touChargingValues.startHour2 = v ∧
     (Growatt.updateControl st "touCharging" (some [("startMinute2", v)])).1.touChargingValues.startMinute2 = v ∧
     (Growatt.updateControl st "touCharging" (some [("stopHour2", v)])).1.touChargingValues.stopHour2 = v ∧
     (Growatt.updateControl st "touCharging" (some [("stopMinute2", v)])).1.touChargingValues.stopMinute2 = v ∧
     (Growatt.updateControl st "touCharging" (some [("enablePeriod2", v)])).1.touChargingValues.enablePeriod2 = v ∧
     (Growatt.updateControl st "touCharging" (some [("startHour3", v)])).1.touChargingValues.startHour3 = v ∧
     (Growatt.updateControl st "touCharging" (some [("startMinute3", v)])).1.touChargingValues.startMinute3 = v ∧
     (Growatt.updateControl st "touCharging" (some [("stopHour3", v)])).1.touChargingValues.stopHour3 = v ∧
     (Growatt.updateControl st "touCharging" (some [("stopMinute3", v)])).1.touChargingValues.stopMinute3 = v ∧
     (Growatt.updateControl st "touCharging" (some [("enablePeriod3", v)])).1.touChargingValues.enablePeriod3 = v) ∧
    (Growatt.updateControl st "touCharging" (some [("chargePower", v)])).2
      = [⟨"touCharging", .charging (Growatt.applyChargingKey st.touChargingValues "chargePower" v)⟩,
         ⟨"touDischarging", .discharging st.touDischargingValues⟩] ∧
    ∀ s : Growatt.TouChargingValues, s.startHour1 = Val.num 99 →
      Growatt.validateTouCharging s = false ∧
      Growatt.setTouCharging s = .error "Error validating setTouCharging" := by
  refine ⟨⟨rfl, rfl, rfl, rfl, rfl, rfl, rfl, rfl, rfl, rfl, rfl, rfl, rfl, rfl, rfl, rfl, rfl, rfl⟩, rfl, ?_⟩
  intro s hs
  have hv : Growatt.validateTouCharging s = false := by
    simp [Growatt.validateTouCharging, numBetween, hs]
  exact ⟨hv, by simp [Growatt.setTouCharging, hv]⟩

/-- C10 witness: merging chargePower 150 stores 150 unchanged, and a cache
with hour 99 is rejected by the set command's validation. -/
theorem claim_C10_merge_unchecked_witness :
    (Growatt.updateControl store0 "touCharging"
        (some [("chargePower", Val.num 150)])).1.touChargingValues.chargePower = Val.num 150 ∧
    Growatt.setTouCharging { Growatt.touChargingValues0 with startHour1 := Val.num 99 }
      = .error "Error validating setTouCharging" := by
  have h := claim_C10_merge_unchecked store0 (Val.num 150)
  exact ⟨h.1.1, (h.2.2 { Growatt.touChargingValues0 with startHour1 := Val.num 99 } rfl).2⟩
